import Mathlib

/-!
Shallow embedding of the DriftDB Python client
(src/clients/python/driftdb/{client,query,types,exceptions}.py) and proofs
about its connection pool, transport connection, query facade and
transaction scope.

Modelling conventions:
* Python exceptions become an explicit error value `PyException` carrying the
  exception class (`ErrKind`, from exceptions.py, plus `attributeError` for
  the builtin raised when a `None` attribute is accessed) and the message
  string; a fallible call returns `Except PyException α`.
* The outcome of each I/O interaction (pool acquisition, wire exchange) is an
  explicit argument, so every interleaving and failure the runtime could
  produce is a choice of arguments.
* Observable pool traffic is recorded as a `List PoolEvent` trace, so the
  theorems can count acquisitions, sent commands and releases.
-/

/-- Exception classes of exceptions.py (ConnectionError, QueryError,
TimeoutError, AuthenticationError, TransactionError) together with two Python
builtins the client code can let escape: AttributeError, which
`Transaction.__aexit__` would raise on an unbound connection, and
ConnectionResetError, the connection-lost exception that the unguarded
`await self._writer.wait_closed()` in `Connection.close` re-raises from the
transport. -/
inductive ErrKind
  | connectionError
  | queryError
  | timeoutError
  | authenticationError
  | transactionError
  | attributeError
  | connectionResetError
deriving DecidableEq, Repr

/-- A raised Python exception: its class and its message string. -/
structure PyException where
  kind : ErrKind
  msg : String
deriving DecidableEq, Repr

/-- JSON scalar values as they appear in decoded wire responses; the claims
never compute with the payloads, they are only carried. -/
inductive JsonVal
  | null
  | jbool (b : Bool)
  | jint (n : Int)
  | jstr (s : String)
deriving DecidableEq, Repr

/-- types.py `Row`: a database row wrapping the decoded mapping from column
name to value. -/
structure Row where
  data : List (String × JsonVal)
deriving DecidableEq, Repr

/-- query.py `QueryResult.__init__`: rows, row_count, columns and the optional
execution time (a float in Python, carried here as an integer number of
milliseconds; no claim computes with it). -/
structure QueryResult where
  rows : List Row
  row_count : Nat
  columns : List String
  execution_time_ms : Option Int
deriving DecidableEq, Repr

/-- query.py `QueryResult.__len__`: returns `self.row_count`. -/
def QueryResult.len (q : QueryResult) : Nat :=
  q.row_count

/-- query.py `QueryResult.__getitem__`: returns `self.rows[index]`; Python's
IndexError on an out-of-range index is modelled by `none`. -/
def QueryResult.getitem (q : QueryResult) (i : Nat) : Option Row :=
  q.rows[i]?

/-- A decoded wire response as Connection.execute reads it: `response.get("type")`,
`response.get("message", ...)`, `response.get("rows", [])`,
`response.get("columns", [])`, `response.get("execution_time_ms")`. Absent keys
are `none` / the empty list. -/
structure WireResponse where
  type : Option String
  message : Option String
  rows : List (List (String × JsonVal))
  columns : List String
  execution_time_ms : Option Int
deriving DecidableEq, Repr

/-- What the environment does during the write/read exchange inside
Connection.execute's `try` block: the read yields a line that decodes to a
response, or `json.loads` raises JSONDecodeError, or some other transport
exception is raised during the write, drain or read. -/
inductive ExchangeOutcome
  | response (r : WireResponse)
  | decodeFailure (m : String)
  | transportFault (m : String)
deriving DecidableEq, Repr

/-- client.py `Connection` mutable state: `_writer` (`none` before `connect`;
`some true` while the transport is open, `some false` once closed) and
`_connected`. -/
structure ConnState where
  writer : Option Bool
  connected : Bool
deriving DecidableEq, Repr

/-- The `Unconnected` link state: fresh `Connection.__init__` — no writer, not
connected. -/
def ConnState.unconnected : ConnState := ⟨none, false⟩

/-- The `Connected` link state after a successful `Connection.connect`. -/
def ConnState.connectedState : ConnState := ⟨some true, true⟩

/-- The `Closed` link state after `Connection.close`. -/
def ConnState.closedState : ConnState := ⟨some false, false⟩

namespace Connection

/-- client.py `Connection.execute` (lines 39-75). If `_connected` is false it
raises ConnectionError. Otherwise it performs one exchange: a JSONDecodeError
from `json.loads` is caught by the dedicated handler and re-raised as
QueryError("Invalid response from server: ..."); any other exception — a
transport fault, or the QueryError raised for a response tagged `"error"`
(whose message is `response.get("message", "Unknown error")`) — is caught by
the blanket `except Exception` handler and re-raised as
QueryError("Query execution failed: ..."), `str` of the caught QueryError
being its bare message. A non-error response builds the QueryResult with
`row_count = len(rows)`. -/
def execute (s : ConnState) (o : ExchangeOutcome) : Except PyException QueryResult :=
  if s.connected = false then
    .error ⟨.connectionError, "Not connected to server"⟩
  else
    match o with
    | .decodeFailure m => .error ⟨.queryError, "Invalid response from server: " ++ m⟩
    | .transportFault m => .error ⟨.queryError, "Query execution failed: " ++ m⟩
    | .response r =>
      if r.type = some "error" then
        .error ⟨.queryError, "Query execution failed: " ++ r.message.getD "Unknown error"⟩
      else
        let rows := r.rows.map Row.mk
        .ok ⟨rows, rows.length, r.columns, r.execution_time_ms⟩

end Connection

/-- What the environment does during the awaited transport teardown
`await self._writer.wait_closed()` inside `Connection.close`: the wait
completes, or it raises the transport's connection-lost exception (for
example ConnectionResetError when the peer reset the link). -/
inductive CloseOutcome
  | completed
  | waitFailure (e : PyException)
deriving DecidableEq, Repr

namespace Connection

/-- client.py `Connection.close` (lines 77-82): if `_writer` is set, call
`self._writer.close()` (the writer flag becomes closed) and then await
`self._writer.wait_closed()` — an await the body does not wrap in
try/except, so a connection-lost exception raised there propagates and the
trailing `self._connected = False` is never executed, leaving `_connected`
unchanged. Only after the wait completes (or when no writer was ever set, in
which case nothing is awaited) is `_connected` set to False. Returns the new
state and the raised exception if any. -/
def close (s : ConnState) (o : CloseOutcome) : ConnState × Except PyException Unit :=
  match s.writer with
  | some _ =>
    match o with
    | .completed => (⟨some false, false⟩, .ok ())
    | .waitFailure e => (⟨some false, s.connected⟩, .error e)
  | none => (⟨none, false⟩, .ok ())

end Connection

/-- client.py `ConnectionPool.__init__` configuration: `min_size` and
`max_size` (host, port and timeout do not affect the counting claims). -/
structure PoolConfig where
  min_size : Nat
  max_size : Nat
deriving DecidableEq, Repr

/-- Counting abstraction of the pool's mutable state: `size` is `self._size`
(connections ever created), `idle` the number of connections sitting in
`self._available`, `out` the number currently checked out by callers. -/
structure PoolState where
  size : Nat
  idle : Nat
  out : Nat
deriving DecidableEq, Repr

/-- Live connections in the sense of the spec: checked-out plus idle. -/
def PoolState.liveCount (s : PoolState) : Nat :=
  s.out + s.idle

/-- One iteration of the loop in `ConnectionPool.initialize` (lines 125-129):
`_create_connection` increments `self._size`, then the new connection is put
into `self._available`. -/
def initLoop : Nat → PoolState → PoolState
  | 0, s => s
  | Nat.succ n, s => initLoop n ⟨s.size + 1, s.idle + 1, s.out⟩

/-- client.py `ConnectionPool.initialize` (named `initPool` here because
`initialize` is a Lean keyword): starting from the freshly constructed pool
(`_size = 0`, empty queue), run the creation loop `min_size` times. -/
def initPool (cfg : PoolConfig) : PoolState :=
  initLoop cfg.min_size ⟨0, 0, 0⟩

/-- Atomic transitions of the pool under an arbitrary interleaving of
concurrent `acquire`/`release` calls (client.py lines 138-157):
* `acquireIdle` — `acquire` obtains a connection from `self._available`
  (either the bounded 1-second `wait_for` at step 1 or the unbounded
  `self._available.get()` at step 3);
* `acquireCreate` — the bounded wait timed out and, with `self._lock` held,
  `self._size < self.max_size`, so `_create_connection` runs; the lock makes
  the capacity check and the `_size` increment one atomic step;
* `release` — a caller returns its checked-out connection to
  `self._available`. -/
inductive PoolStep (cfg : PoolConfig) : PoolState → PoolState → Prop
  | acquireIdle (s : PoolState) (h : 0 < s.idle) :
      PoolStep cfg s ⟨s.size, s.idle - 1, s.out + 1⟩
  | acquireCreate (s : PoolState) (h : s.size < cfg.max_size) :
      PoolStep cfg s ⟨s.size + 1, s.idle, s.out + 1⟩
  | release (s : PoolState) (h : 0 < s.out) :
      PoolStep cfg s ⟨s.size, s.idle + 1, s.out - 1⟩

/-- Pool states reachable from a completed `initialize()` by any interleaved
sequence of concurrent acquire and release calls. -/
def PoolReachable (cfg : PoolConfig) (s : PoolState) : Prop :=
  Relation.ReflTransGen (PoolStep cfg) (initPool cfg) s

/-- Observable pool and wire traffic of the facade and transaction layers:
a connection (identified by a `Nat`) is acquired from the pool, a command is
sent on it via `Connection.execute`, or it is released back to the pool. -/
inductive PoolEvent
  | acquired (c : Nat)
  | sent (c : Nat) (cmd : String)
  | released (c : Nat)
deriving DecidableEq, Repr

/-- Number of `sent` events carrying the command `cmd` in a trace. -/
def countSent (evs : List PoolEvent) (cmd : String) : Nat :=
  (evs.filter fun e => match e with
    | .sent _ c => c == cmd
    | _ => false).length

/-- Number of times connection `c` is released in a trace. -/
def countReleased (evs : List PoolEvent) (c : Nat) : Nat :=
  (evs.filter fun e => match e with
    | .released d => d == c
    | _ => false).length

/-- Number of times connection `c` is acquired in a trace. -/
def countAcquired (evs : List PoolEvent) (c : Nat) : Nat :=
  (evs.filter fun e => match e with
    | .acquired d => d == c
    | _ => false).length

namespace Client

/-- client.py `Client.query` (lines 238-260). `conn = await self._pool.acquire()`
runs outside the `try`, so an acquisition failure propagates with nothing
acquired; otherwise `conn.execute(sql, params)` runs in a `try` whose
`finally` releases the connection, so the execute outcome — result or
exception — propagates after the release. The acquisition outcome and the
execute outcome are explicit arguments. -/
def query (acq : Except PyException Nat) (sql : String)
    (execRes : Except PyException QueryResult) :
    List PoolEvent × Except PyException QueryResult :=
  match acq with
  | .error e => ([], .error e)
  | .ok c => ([.acquired c, .sent c sql, .released c], execRes)

/-- client.py `Client.query_at_seq` (lines 262-281): appends the f-string
suffix ` FOR SYSTEM_TIME AS OF @SEQ:{sequence}` to the SQL text and delegates
to `query`. -/
def query_at_seq (acq : Except PyException Nat) (sql : String) (sequence : Int)
    (execRes : Except PyException QueryResult) :
    List PoolEvent × Except PyException QueryResult :=
  query acq (sql ++ " FOR SYSTEM_TIME AS OF @SEQ:" ++ toString sequence) execRes

/-- client.py `Client.query_at_time` (lines 283-304) for a string timestamp:
appends the f-string suffix ` FOR SYSTEM_TIME AS OF '{timestamp}'` and
delegates to `query`. -/
def query_at_time (acq : Except PyException Nat) (sql : String) (timestamp : String)
    (execRes : Except PyException QueryResult) :
    List PoolEvent × Except PyException QueryResult :=
  query acq (sql ++ " FOR SYSTEM_TIME AS OF '" ++ timestamp ++ "'") execRes

/-- client.py `Client.execute` (lines 306-318): run `query` and return
`result.row_count`. -/
def execute (acq : Except PyException Nat) (sql : String)
    (execRes : Except PyException QueryResult) :
    List PoolEvent × Except PyException Nat :=
  match query acq sql execRes with
  | (evs, .ok q) => (evs, .ok q.row_count)
  | (evs, .error e) => (evs, .error e)

end Client

/-- client.py `Transaction` mutable state: `self._conn`, the bound
connection, `none` until `__aenter__` binds one. No method of the class ever
resets it to `None` or replaces it. -/
structure TxState where
  conn : Option Nat
deriving DecidableEq, Repr

namespace Transaction

/-- client.py `Transaction.__aenter__` (lines 349-353):
`self._conn = await self._pool.acquire()` — an acquisition failure propagates
with `_conn` still `None`; then `self._conn.execute("BEGIN TRANSACTION")` —
a failure there propagates with `_conn` already bound to the acquired
connection, and nothing releases it (Python does not run `__aexit__` when
`__aenter__` raises). Returns the new state, the event trace, and the raised
exception if any. -/
def aenter (acq : Except PyException Nat)
    (begRes : Except PyException QueryResult) :
    TxState × List PoolEvent × Except PyException Unit :=
  match acq with
  | .error e => (⟨none⟩, [], .error e)
  | .ok c =>
    match begRes with
    | .error e => (⟨some c⟩, [.acquired c, .sent c "BEGIN TRANSACTION"], .error e)
    | .ok _ => (⟨some c⟩, [.acquired c, .sent c "BEGIN TRANSACTION"], .ok ())

/-- client.py `Transaction.__aexit__` (lines 355-364): in a `try`, send
`COMMIT` when the scope raised no exception (`exc_type is None`), `ROLLBACK`
otherwise; the `finally` releases `self._conn` whenever it is bound, so the
release happens even when the COMMIT/ROLLBACK execute call fails, and that
failure then propagates. With `_conn` unbound the attribute access on `None`
raises AttributeError and the `finally` releases nothing. -/
def aexit (st : TxState) (excPending : Bool)
    (exitRes : Except PyException QueryResult) :
    List PoolEvent × Except PyException Unit :=
  match st.conn with
  | none => ([], .error ⟨.attributeError, "NoneType object has no attribute execute"⟩)
  | some c =>
    ([.sent c (if excPending then "ROLLBACK" else "COMMIT"), .released c],
     match exitRes with
     | .ok _ => .ok ()
     | .error e => .error e)

/-- client.py `Transaction.execute` (lines 366-370): with `_conn` unbound,
raise QueryError("Transaction not started") and send nothing; otherwise send
the SQL on the bound connection and return the exchange outcome. The state is
returned unchanged — the method never mutates `_conn`. -/
def execute (st : TxState) (sql : String)
    (execRes : Except PyException QueryResult) :
    TxState × List PoolEvent × Except PyException QueryResult :=
  match st.conn with
  | none => (st, [], .error ⟨.queryError, "Transaction not started"⟩)
  | some c => (st, [.sent c sql], execRes)

/-- client.py `Transaction.commit` (lines 372-376): with `_conn` unbound,
raise QueryError("Transaction not started"); otherwise send `COMMIT` on the
bound connection. `_conn` is left bound — the method records no terminal
state. -/
def commit (st : TxState) (execRes : Except PyException QueryResult) :
    TxState × List PoolEvent × Except PyException Unit :=
  match st.conn with
  | none => (st, [], .error ⟨.queryError, "Transaction not started"⟩)
  | some c =>
    (st, [.sent c "COMMIT"],
     match execRes with
     | .ok _ => .ok ()
     | .error e => .error e)

/-- client.py `Transaction.rollback` (lines 378-382): with `_conn` unbound,
raise QueryError("Transaction not started"); otherwise send `ROLLBACK` on the
bound connection. `_conn` is left bound. -/
def rollback (st : TxState) (execRes : Except PyException QueryResult) :
    TxState × List PoolEvent × Except PyException Unit :=
  match st.conn with
  | none => (st, [], .error ⟨.queryError, "Transaction not started"⟩)
  | some c =>
    (st, [.sent c "ROLLBACK"],
     match execRes with
     | .ok _ => .ok ()
     | .error e => .error e)

/-- One `async with client.transaction() as tx:` scope, per Python context
manager semantics: run `__aenter__`; if it raises, propagate without running
the body or `__aexit__`. Otherwise run the body — represented by the pool
and wire events it emits and whether it raises — then `__aexit__` with
`exc_type` reflecting the body outcome; an exception from `__aexit__`
propagates, else the body's own exception does. -/
def scopedRun (acq : Except PyException Nat)
    (begRes : Except PyException QueryResult)
    (bodyEvents : List PoolEvent) (bodyRes : Except PyException Unit)
    (exitRes : Except PyException QueryResult) :
    List PoolEvent × Except PyException Unit :=
  match aenter acq begRes with
  | (_, evs, .error e) => (evs, .error e)
  | (st, evs, .ok _) =>
    let excPending := match bodyRes with
      | .ok _ => false
      | .error _ => true
    match aexit st excPending exitRes with
    | (exitEvs, .error e) => (evs ++ bodyEvents ++ exitEvs, .error e)
    | (exitEvs, .ok _) => (evs ++ bodyEvents ++ exitEvs, bodyRes)

end Transaction

/-- An empty successful query result, used to instantiate concrete runs. -/
def emptyQR : QueryResult := ⟨[], 0, [], none⟩


/-- The initialization loop adds `n` to both `size` and `idle` and leaves
`out` unchanged. -/
theorem initLoop_spec (n : Nat) (s : PoolState) :
    initLoop n s = ⟨s.size + n, s.idle + n, s.out⟩ := by
  induction n generalizing s with
  | zero => rfl
  | succ k ih =>
    show initLoop k ⟨s.size + 1, s.idle + 1, s.out⟩ = _
    rw [ih]
    dsimp only
    simp only [PoolState.mk.injEq]
    refine ⟨by omega, by omega, trivial⟩

/-- After `initialize()` the pool holds exactly `min_size` connections, all
idle. -/
theorem initPool_spec (cfg : PoolConfig) :
    initPool cfg = ⟨cfg.min_size, cfg.min_size, 0⟩ := by
  rw [initPool, initLoop_spec]
  dsimp only
  simp only [PoolState.mk.injEq]
  refine ⟨by omega, by omega, trivial⟩

/-- Inductive invariant of the pool: the created-connection counter equals
idle plus checked-out, and never exceeds `max_size`. -/
theorem pool_inv_reachable (cfg : PoolConfig) (h : cfg.min_size ≤ cfg.max_size)
    (s : PoolState) (hr : PoolReachable cfg s) :
    s.size = s.idle + s.out ∧ s.size ≤ cfg.max_size := by
  induction hr with
  | refl => rw [initPool_spec]; exact ⟨rfl, h⟩
  | tail _ step ih =>
    obtain ⟨ih1, ih2⟩ := ih
    cases step with
    | acquireIdle hb => exact ⟨by dsimp only; omega, by dsimp only; omega⟩
    | acquireCreate hb => exact ⟨by dsimp only; omega, by dsimp only; omega⟩
    | release hb => exact ⟨by dsimp only; omega, by dsimp only; omega⟩

/-- C1: for every pool configured with min_size ≤ max_size and every
interleaved sequence of concurrent acquire and release calls starting from a
completed initialize(), the live connection count (checked-out plus idle)
never exceeds max_size; and immediately after initialize() completes, the live
count equals min_size. -/
theorem C1_pool_capacity_invariant (cfg : PoolConfig)
    (h : cfg.min_size ≤ cfg.max_size) :
    (initPool cfg).liveCount = cfg.min_size ∧
    ∀ s : PoolState, PoolReachable cfg s → s.liveCount ≤ cfg.max_size := by
  constructor
  · rw [initPool_spec, PoolState.liveCount]
    dsimp only
    omega
  · intro s hs
    obtain ⟨h1, h2⟩ := pool_inv_reachable cfg h s hs
    rw [PoolState.liveCount]
    omega

/-- Witness for C1 at the default configuration min_size = 2, max_size = 10:
the initial state is live-count 2, and the state reached by one
acquire-from-idle step followed by one create step is within capacity. -/
theorem C1_pool_capacity_invariant_witness :
    (initPool ⟨2, 10⟩).liveCount = 2 ∧
    PoolState.liveCount ⟨3, 1, 2⟩ ≤ 10 := by
  refine ⟨(C1_pool_capacity_invariant ⟨2, 10⟩ (by decide)).1, ?_⟩
  have hreach : PoolReachable ⟨2, 10⟩ ⟨3, 1, 2⟩ := by
    have h1 : PoolStep ⟨2, 10⟩ (initPool ⟨2, 10⟩) ⟨2, 1, 1⟩ := by
      rw [initPool_spec]
      exact PoolStep.acquireIdle ⟨2, 2, 0⟩ (by decide)
    have h2 : PoolStep ⟨2, 10⟩ ⟨2, 1, 1⟩ ⟨3, 1, 2⟩ :=
      PoolStep.acquireCreate ⟨2, 1, 1⟩ (by decide)
    exact Relation.ReflTransGen.head h1 (Relation.ReflTransGen.single h2)
  exact (C1_pool_capacity_invariant ⟨2, 10⟩ (by decide)).2 ⟨3, 1, 2⟩ hreach

/-- C2 is refuted on the code: with acquisition succeeding (connection 0) and
BEGIN failing, `Transaction.__aenter__` propagates the failure, but the
acquired connection is already bound to `self._conn` and no `release` event
ever occurs — the connection is leaked, and by the code's own notion of
"started" (`self._conn` is set) the transaction is not left unstarted. -/
theorem C2_counterexample :
    Transaction.aenter (.ok 0) (.error ⟨.queryError, "BEGIN failed"⟩)
      = (⟨some 0⟩, [.acquired 0, .sent 0 "BEGIN TRANSACTION"],
         .error ⟨.queryError, "BEGIN failed"⟩) ∧
    countReleased [PoolEvent.acquired 0, PoolEvent.sent 0 "BEGIN TRANSACTION"] 0 = 0 ∧
    countAcquired [PoolEvent.acquired 0, PoolEvent.sent 0 "BEGIN TRANSACTION"] 0 = 1 :=
  ⟨rfl, rfl, rfl⟩

/-- C2 amended: if acquiring the connection fails, the failure propagates, the
transaction has no bound connection and nothing was acquired; if sending BEGIN
on the acquired connection fails, the failure propagates, but the connection
remains bound to the transaction and is not returned to the pool. -/
theorem C2_amended_entry_failure (e : PyException) (c : Nat) (qr : QueryResult) :
    Transaction.aenter (.error e) (.ok qr) = (⟨none⟩, [], .error e) ∧
    Transaction.aenter (.ok c) (.error e)
      = (⟨some c⟩, [.acquired c, .sent c "BEGIN TRANSACTION"], .error e) ∧
    countReleased [PoolEvent.acquired c, PoolEvent.sent c "BEGIN TRANSACTION"] c = 0 :=
  ⟨rfl, rfl, rfl⟩

/-- C3 is refuted on the code in the documented usage (the `Client` docstring
example calls `await tx.commit()` inside the `async with` scope): with entry
succeeding on connection 0 and a body that performs exactly the events of an
explicit `commit()`, the scope's full trace carries two COMMIT commands — one
from `commit()`, one from `__aexit__` — though the connection is still
released exactly once. -/
theorem C3_counterexample :
    countSent (Transaction.scopedRun (.ok 0) (.ok emptyQR)
      (Transaction.commit ⟨some 0⟩ (.ok emptyQR)).2.1 (.ok ()) (.ok emptyQR)).1
      "COMMIT" = 2 ∧
    countReleased (Transaction.scopedRun (.ok 0) (.ok emptyQR)
      (Transaction.commit ⟨some 0⟩ (.ok emptyQR)).2.1 (.ok ()) (.ok emptyQR)).1
      0 = 1 := by
  constructor <;> rfl

/-- C3 amended: for every transaction scope whose body completes without a
raised failure, the scope exit sends exactly one COMMIT on the bound
connection and releases it back to the pool exactly once; the scope's total
trace therefore contains one COMMIT and one release more than the body itself
issued. In the documented usage, where the caller also invokes commit()
explicitly before the scope exits, two COMMITs are sent in total, while the
connection is still released exactly once. -/
theorem C3_amended_commit_path (c : Nat) (qr : QueryResult)
    (bodyEvents : List PoolEvent) (exitRes : Except PyException QueryResult) :
    countSent (Transaction.scopedRun (.ok c) (.ok qr) bodyEvents (.ok ()) exitRes).1
      "COMMIT" = countSent bodyEvents "COMMIT" + 1 ∧
    countReleased (Transaction.scopedRun (.ok c) (.ok qr) bodyEvents (.ok ()) exitRes).1
      c = countReleased bodyEvents c + 1 := by
  have hrun : (Transaction.scopedRun (.ok c) (.ok qr) bodyEvents (.ok ()) exitRes).1
      = [PoolEvent.acquired c, PoolEvent.sent c "BEGIN TRANSACTION"] ++ bodyEvents
        ++ [PoolEvent.sent c "COMMIT", PoolEvent.released c] := by
    cases exitRes <;> rfl
  rw [hrun]
  rw [countSent, countSent, countReleased, countReleased]
  simp only [List.filter_append, List.length_append, List.filter]
  constructor <;> simp [Nat.add_comm]

/-- C4: on every implicit transaction scope exit with a bound connection, a
COMMIT is issued when the scope completed without a raised failure and a
ROLLBACK otherwise, and in both cases — for every outcome of the
COMMIT/ROLLBACK exchange, including failure, which then propagates — the bound
connection is released back to the pool exactly once. -/
theorem C4_exit_always_releases (c : Nat) (excPending : Bool)
    (exitRes : Except PyException QueryResult) :
    (Transaction.aexit ⟨some c⟩ false exitRes).1
      = [.sent c "COMMIT", .released c] ∧
    (Transaction.aexit ⟨some c⟩ true exitRes).1
      = [.sent c "ROLLBACK", .released c] ∧
    countReleased (Transaction.aexit ⟨some c⟩ excPending exitRes).1 c = 1 ∧
    (∀ e : PyException, exitRes = .error e →
      (Transaction.aexit ⟨some c⟩ excPending exitRes).2 = .error e) := by
  refine ⟨rfl, rfl, ?_, ?_⟩
  · cases excPending <;>
      simp [Transaction.aexit, countReleased, List.filter]
  · intro e he
    subst he
    cases excPending <;> rfl

/-- C5 is refuted on the code: on a never-entered transaction, `commit`
raises a QueryError — not the TransactionError class that the
TransactionNotStarted kind names — and on a transaction that has already
committed (connection 0 still bound, since `commit` never clears `_conn`),
`execute` does not fail at all: it sends the SQL on the bound connection and
returns the exchange result. -/
theorem C5_counterexample :
    (Transaction.commit ⟨none⟩ (.ok emptyQR)).2.2
      = .error ⟨.queryError, "Transaction not started"⟩ ∧
    ErrKind.queryError ≠ ErrKind.transactionError ∧
    Transaction.execute (Transaction.commit ⟨some 0⟩ (.ok emptyQR)).1
        "SELECT 1" (.ok emptyQR)
      = (⟨some 0⟩, [.sent 0 "SELECT 1"], .ok emptyQR) :=
  ⟨rfl, by decide, rfl⟩

/-- C5 amended: for every transaction that was never entered (no bound
connection), calling execute, commit, or rollback fails with the QueryError
kind and message "Transaction not started" and sends nothing on any
connection; a transaction that has already committed or rolled back keeps its
bound connection, and these calls send the corresponding command on it rather
than failing. -/
theorem C5_amended_not_started (sql : String) (c : Nat)
    (r : Except PyException QueryResult) :
    Transaction.execute ⟨none⟩ sql r
      = (⟨none⟩, [], .error ⟨.queryError, "Transaction not started"⟩) ∧
    Transaction.commit ⟨none⟩ r
      = (⟨none⟩, [], .error ⟨.queryError, "Transaction not started"⟩) ∧
    Transaction.rollback ⟨none⟩ r
      = (⟨none⟩, [], .error ⟨.queryError, "Transaction not started"⟩) ∧
    (Transaction.commit ⟨some c⟩ r).1 = ⟨some c⟩ ∧
    (Transaction.commit ⟨some c⟩ r).2.1 = [.sent c "COMMIT"] ∧
    (Transaction.rollback ⟨some c⟩ r).1 = ⟨some c⟩ ∧
    (Transaction.rollback ⟨some c⟩ r).2.1 = [.sent c "ROLLBACK"] :=
  ⟨rfl, rfl, rfl, rfl, rfl, rfl, rfl⟩

/-- C6: every `Client.query` call that acquires a connection acquires exactly
one, sends the SQL on it, and releases that same connection back to the pool
on every exit path — the trace is identical for a successful execute (whose
result is returned) and a failing one (whose exception propagates). -/
theorem C6_query_releases_on_all_paths (c : Nat) (sql : String)
    (execRes : Except PyException QueryResult) :
    Client.query (.ok c) sql execRes
      = ([.acquired c, .sent c sql, .released c], execRes) ∧
    countAcquired (Client.query (.ok c) sql execRes).1 c = 1 ∧
    countReleased (Client.query (.ok c) sql execRes).1 c = 1 := by
  refine ⟨rfl, ?_, ?_⟩ <;>
    simp [Client.query, countAcquired, countReleased, List.filter]

/-- C7: the sequence-number time-travel variant delegates to `query` with
request text equal to the SQL followed by " FOR SYSTEM_TIME AS OF
@SEQ:<sequence>", and the timestamp variant with the SQL followed by
" FOR SYSTEM_TIME AS OF '<timestamp>'" — the timestamp appearing verbatim
between single quotes for every string, so the interpolated value is neither
escaped nor validated client-side. -/
theorem C7_time_travel_rewrite (c : Nat) (sql ts : String) (sequence : Int)
    (execRes : Except PyException QueryResult) :
    (Client.query_at_seq (.ok c) sql sequence execRes).1
      = [.acquired c,
         .sent c (sql ++ " FOR SYSTEM_TIME AS OF @SEQ:" ++ toString sequence),
         .released c] ∧
    (Client.query_at_time (.ok c) sql ts execRes).1
      = [.acquired c,
         .sent c (sql ++ " FOR SYSTEM_TIME AS OF '" ++ ts ++ "'"),
         .released c] ∧
    Client.query_at_seq (.ok c) sql sequence execRes
      = Client.query (.ok c)
          (sql ++ " FOR SYSTEM_TIME AS OF @SEQ:" ++ toString sequence) execRes ∧
    Client.query_at_time (.ok c) sql ts execRes
      = Client.query (.ok c)
          (sql ++ " FOR SYSTEM_TIME AS OF '" ++ ts ++ "'") execRes :=
  ⟨rfl, rfl, rfl, rfl⟩

/-- C8: on a Connected connection, a response tagged "error" makes execute
fail with the QueryError kind carrying the server-supplied message (wrapped by
the blanket handler's "Query execution failed: " prefix); an undecodable
response fails with the QueryError kind and the decoding-error message; any
other transport fault during the exchange also fails with the QueryError
kind; and on a non-error response a fully populated QueryResult is returned —
never a partial result on failure. -/
theorem C8_execute_error_taxonomy (m : String) (r : WireResponse) :
    (r.type = some "error" →
      Connection.execute ConnState.connectedState (.response r)
        = .error ⟨.queryError,
            "Query execution failed: " ++ r.message.getD "Unknown error"⟩) ∧
    (Connection.execute ConnState.connectedState (.decodeFailure m)
      = .error ⟨.queryError, "Invalid response from server: " ++ m⟩) ∧
    (Connection.execute ConnState.connectedState (.transportFault m)
      = .error ⟨.queryError, "Query execution failed: " ++ m⟩) ∧
    (r.type ≠ some "error" →
      Connection.execute ConnState.connectedState (.response r)
        = .ok ⟨r.rows.map Row.mk, (r.rows.map Row.mk).length,
               r.columns, r.execution_time_ms⟩) := by
  refine ⟨?_, rfl, rfl, ?_⟩
  · intro h
    simp [Connection.execute, ConnState.connectedState, h]
  · intro h
    simp [Connection.execute, ConnState.connectedState, h]

/-- Witness for C8 at concrete responses: the server error response with
message "table missing" and the successful empty response. -/
theorem C8_execute_error_taxonomy_witness :
    Connection.execute ConnState.connectedState
        (.response ⟨some "error", some "table missing", [], [], none⟩)
      = .error ⟨.queryError, "Query execution failed: table missing"⟩ ∧
    Connection.execute ConnState.connectedState
        (.response ⟨some "ok", none, [[("id", .jint 1)]], ["id"], some 3⟩)
      = .ok ⟨[Row.mk [("id", .jint 1)]], 1, ["id"], some 3⟩ := by
  constructor
  · exact (C8_execute_error_taxonomy "x"
      ⟨some "error", some "table missing", [], [], none⟩).1 rfl
  · exact (C8_execute_error_taxonomy "x"
      ⟨some "ok", none, [[("id", .jint 1)]], ["id"], some 3⟩).2.2.2 (by decide)

/-- C9 is refuted on the code: in the Connected link state, when the awaited
`self._writer.wait_closed()` raises the transport's connection-lost exception
(here ConnectionResetError, which the unguarded body re-raises), `close()`
does not complete without failure, and because the trailing
`self._connected = False` is never executed the connection is left still
marked Connected. -/
theorem C9_counterexample :
    Connection.close ConnState.connectedState
        (.waitFailure ⟨.connectionResetError, "Connection reset by peer"⟩)
      = (⟨some false, true⟩,
         .error ⟨.connectionResetError, "Connection reset by peer"⟩) ∧
    (Connection.close ConnState.connectedState
        (.waitFailure ⟨.connectionResetError, "Connection reset by peer"⟩)).1.connected
      = true :=
  ⟨rfl, rfl⟩

/-- C9 amended: whenever the awaited transport teardown completes — and
always when no writer was ever set, since nothing is then awaited — `close()`
completes without failure, leaves the connection not Connected, and calling
`close()` again afterwards is a no-op that also completes without failure.
But the body does not guard `await self._writer.wait_closed()`: if that wait
raises the transport's connection-lost exception, the failure propagates and
`self._connected = False` is never executed, so the connection keeps its
previous Connected mark. -/
theorem C9_amended_close (s : ConnState) (w c : Bool) (e : PyException) :
    (Connection.close s .completed).1.connected = false ∧
    (Connection.close s .completed).2 = .ok () ∧
    Connection.close (Connection.close s .completed).1 .completed
      = ((Connection.close s .completed).1, .ok ()) ∧
    Connection.close ⟨some w, c⟩ (.waitFailure e) = (⟨some false, c⟩, .error e) ∧
    Connection.close ⟨none, c⟩ (.waitFailure e) = (⟨none, false⟩, .ok ()) := by
  refine ⟨?_, ?_, ?_, rfl, rfl⟩ <;> rcases s with ⟨_ | w', c'⟩ <;> rfl

/-- C10: every QueryResult that Connection.execute returns satisfies
row_count = rows.length, hence `len` is the actual number of rows and every
index below row_count is in range; and Client.execute on any non-error server
response returns exactly the number of rows in that response. -/
theorem C10_row_count_consistent (s : ConnState) (o : ExchangeOutcome)
    (q : QueryResult) (c : Nat) (sql : String) (r : WireResponse)
    (h : Connection.execute s o = .ok q) (hr : r.type ≠ some "error") :
    q.row_count = q.rows.length ∧
    q.len = q.rows.length ∧
    (∀ i, i < q.row_count → (q.getitem i).isSome) ∧
    (Client.execute (.ok c) sql
        (Connection.execute ConnState.connectedState (.response r))).2
      = .ok r.rows.length := by
  have hq : q.row_count = q.rows.length := by
    rcases s with ⟨w, sc⟩
    cases sc with
    | false => simp [Connection.execute] at h
    | true =>
      cases o with
      | decodeFailure m => simp [Connection.execute] at h
      | transportFault m => simp [Connection.execute] at h
      | response wr =>
        by_cases ht : wr.type = some "error"
        · simp [Connection.execute, ht] at h
        · have hval : Connection.execute ⟨w, true⟩ (.response wr)
              = .ok ⟨wr.rows.map Row.mk, (wr.rows.map Row.mk).length,
                     wr.columns, wr.execution_time_ms⟩ := by
            simp [Connection.execute, ht]
          rw [hval] at h
          injection h with h2
          rw [← h2]
  refine ⟨hq, hq, ?_, ?_⟩
  · intro i hi
    rw [QueryResult.getitem]
    rw [hq] at hi
    simp [List.getElem?_eq_getElem hi]
  · have hex : Connection.execute ConnState.connectedState (.response r)
        = .ok ⟨r.rows.map Row.mk, (r.rows.map Row.mk).length,
               r.columns, r.execution_time_ms⟩ := by
      simp [Connection.execute, ConnState.connectedState, hr]
    rw [hex, Client.execute, Client.query]
    simp

/-- Witness for C10: a connected execute on a one-row response yields a
result whose row_count is 1, with index 0 in range, and Client.execute
returns 1. -/
theorem C10_row_count_consistent_witness :
    (QueryResult.mk [Row.mk [("id", .jint 7)]] 1 ["id"] none).row_count = 1 ∧
    ((QueryResult.mk [Row.mk [("id", .jint 7)]] 1 ["id"] none).getitem 0).isSome ∧
    (Client.execute (.ok 0) "SELECT id FROM t"
        (Connection.execute ConnState.connectedState
          (.response ⟨some "ok", none, [[("id", .jint 7)]], ["id"], none⟩))).2
      = .ok 1 := by
  have h := C10_row_count_consistent ConnState.connectedState
    (.response ⟨some "ok", none, [[("id", .jint 7)]], ["id"], none⟩)
    ⟨[Row.mk [("id", .jint 7)]], 1, ["id"], none⟩ 0 "SELECT id FROM t"
    ⟨some "ok", none, [[("id", .jint 7)]], ["id"], none⟩
    (by rfl) (by decide)
  exact ⟨h.1.trans (by rfl), h.2.2.1 0 (by decide), h.2.2.2⟩

/-- Witness for C4 at connection 0 with a failing ROLLBACK exchange: the
connection is still released exactly once and the failure propagates. -/
theorem C4_exit_always_releases_witness :
    countReleased (Transaction.aexit ⟨some 0⟩ true
      (.error ⟨.queryError, "ROLLBACK failed"⟩)).1 0 = 1 ∧
    (Transaction.aexit ⟨some 0⟩ true
      (.error ⟨.queryError, "ROLLBACK failed"⟩)).2
      = .error ⟨.queryError, "ROLLBACK failed"⟩ := by
  have h := C4_exit_always_releases 0 true
    (.error ⟨.queryError, "ROLLBACK failed"⟩)
  exact ⟨h.2.2.1, h.2.2.2 ⟨.queryError, "ROLLBACK failed"⟩ rfl⟩
